import Mathlib

/-!
Shallow embedding of the `myscripts` repository: two near-duplicate PyQt news
readers, `PostNews.py` (synchronous thumbnail loading) and `PostNewsTrial.py`
(asynchronous thumbnail loading).  Pure logic is translated to executable Lean
definitions; stateful GUI behaviour is translated to explicit state passing.
Python exceptions are modelled with `Except`, absent values with `Option`.
-/

/-- A decoded bitmap (a `QPixmap` that is not null).  The pixel contents are
irrelevant to every claim, so the carrier is abstract but has decidable
equality. -/
structure Img where
  data : Nat
deriving DecidableEq

/-- The raw description markup of one feed entry, as seen by
`BeautifulSoup(entry.description, "html.parser")`.  `ok imgs` lists the
`img` elements in document order, each with its optional `src` attribute
(`none` when the element has no `src`); `parseFail` stands for markup on
which parsing or attribute traversal raises. -/
inductive Markup where
  | ok (imgs : List (Option String))
  | parseFail
deriving DecidableEq

/-- One parsed feed entry, with the fields the code reads:
`entry.title`, `entry.link`, `entry.description`. -/
structure Entry where
  title : String
  link : String
  description : Markup
deriving DecidableEq

/-- The dictionaries appended to `news_items` in `FetchNewsThread.run`
(both variants): keys `title`, `link`, `image_url`. -/
structure NewsItem where
  title : String
  link : String
  image_url : Option String
deriving DecidableEq

/-- Embeds `soup.find("img")` followed by `img_tag["src"] if img_tag else None`
(PostNews.py lines 25-27, PostNewsTrial.py lines 26-28).  `find` returns the
first `img` element in document order; subscripting it with `"src"` raises
`KeyError` when that element has no such attribute, and parsing may raise on
`parseFail` markup.  A raised exception is an `Except.error`. -/
def findImgSrc : Markup → Except String (Option String)
  | Markup.parseFail => Except.error "parse error"
  | Markup.ok [] => Except.ok none
  | Markup.ok (some src :: _) => Except.ok (some src)
  | Markup.ok (none :: _) => Except.error "KeyError: src"

/-- Embeds the per-entry `try`/`except` of PostNewsTrial.py lines 25-31: any
failure of the extraction is caught and degrades to `image_url = None` for
that entry alone. -/
def findImgSrcSafe (m : Markup) : Option String :=
  match findImgSrc m with
  | Except.ok r => r
  | Except.error _ => none

/-- The synthetic item built in the `except` clause of `FetchNewsThread.run`
(identical in both variants): title embeds the failure text, link is empty,
`image_url` is `None`. -/
def errorItem (e : String) : NewsItem :=
  { title := "Error fetching news: " ++ e, link := "", image_url := none }

/-- The entry loop of `PostNews.py` `FetchNewsThread.run` (lines 19-33).  The
whole loop body runs inside the single outer `try`, so an extraction failure
for any entry propagates out of the loop: the accumulated items are discarded
and control reaches the `except` clause. -/
def processEntriesSync : List Entry → Except String (List NewsItem)
  | [] => Except.ok []
  | e :: rest =>
    match findImgSrc e.description with
    | Except.error msg => Except.error msg
    | Except.ok img =>
      match processEntriesSync rest with
      | Except.error msg => Except.error msg
      | Except.ok tail =>
        Except.ok ({ title := e.title, link := e.link, image_url := img } :: tail)

/-- `FetchNewsThread.run` of `PostNews.py` (lines 14-40).  The argument is the
outcome of `feedparser.parse`: `Except.error e` when fetching or parsing the
feed raises, `Except.ok entries` otherwise.  Any exception — from the fetch or
from the entry loop — reaches the one `except` clause, which emits the single
synthetic error item. -/
def fetchNewsRunSync (feed : Except String (List Entry)) : List NewsItem :=
  match feed with
  | Except.error e => [errorItem e]
  | Except.ok entries =>
    match processEntriesSync entries with
    | Except.ok items => items
    | Except.error e => [errorItem e]

/-- `FetchNewsThread.run` of `PostNewsTrial.py` (lines 14-44).  Identical to
the sync variant except that each entry has its own inner `try`/`except`
around the extraction, so a per-entry failure only clears that entry's
`image_url`. -/
def fetchNewsRunTrial (feed : Except String (List Entry)) : List NewsItem :=
  match feed with
  | Except.error e => [errorItem e]
  | Except.ok entries =>
    entries.map fun e =>
      { title := e.title, link := e.link, image_url := findImgSrcSafe e.description }

/-- `NewsApp.open_link` (PostNews.py lines 145-148, PostNewsTrial.py lines
176-179): `if link: webbrowser.open(link)`.  The result is the list of
`webbrowser.open` invocations performed, in order; a Python string is truthy
exactly when it is non-empty. -/
def open_link (link : String) : List String :=
  if link = "" then [] else [link]

/-- Helper for `fetchNewsRunSync`: a successful entry loop yields one item
per entry. -/
theorem length_processEntriesSync (entries : List Entry) (items : List NewsItem)
    (h : processEntriesSync entries = Except.ok items) :
    items.length = entries.length := by
  induction entries generalizing items with
  | nil =>
    simp [processEntriesSync] at h
    simp [← h]
  | cons e rest ih =>
    simp only [processEntriesSync] at h
    cases himg : findImgSrc e.description with
    | error msg => rw [himg] at h; simp at h
    | ok img =>
      rw [himg] at h
      cases htail : processEntriesSync rest with
      | error msg => rw [htail] at h; simp at h
      | ok tail =>
        rw [htail] at h
        simp at h
        rw [← h]
        simp [ih tail htail]

/-- Entry whose first `img` element has no `src` attribute: extracting raises. -/
def entryBadImg : Entry :=
  { title := "A", link := "la", description := Markup.ok [none] }

/-- Well-formed entry whose first `img` element has `src = "x"`. -/
def entryGoodImg : Entry :=
  { title := "B", link := "lb", description := Markup.ok [some "x"] }

/-- Claim C2: when the feed fetch or parse raises, `FetchNewsThread.run` of
either variant does not propagate the error; it emits exactly one synthetic
item whose title embeds the failure text, whose link is empty and whose
thumbnail URL is absent. -/
theorem C2_fetch_error (e : String) :
    fetchNewsRunSync (Except.error e) =
      [{ title := "Error fetching news: " ++ e, link := "", image_url := none }] ∧
    fetchNewsRunTrial (Except.error e) =
      [{ title := "Error fetching news: " ++ e, link := "", image_url := none }] :=
  ⟨rfl, rfl⟩

/-- Claim C3, counterexample to per-item isolation in the sync variant: with a
first entry whose extraction raises and a healthy second entry, `PostNews.py`
aborts the whole batch and delivers the single synthetic error item — the
second entry is not processed — while `PostNewsTrial.py` degrades only the
failing entry. -/
theorem C3_counterexample :
    fetchNewsRunSync (Except.ok [entryBadImg, entryGoodImg]) =
      [errorItem "KeyError: src"] ∧
    fetchNewsRunTrial (Except.ok [entryBadImg, entryGoodImg]) =
      [{ title := "A", link := "la", image_url := none },
       { title := "B", link := "lb", image_url := some "x" }] :=
  ⟨rfl, rfl⟩

/-- Claim C3 as amended: extraction returns the `src` of the first image
element in document order and `none` when there is no image element; an
extraction failure degrades to no-thumbnail in the async variant, which
processes every entry of the batch independently.  (In the sync variant a
per-entry failure instead aborts the batch, per `C3_counterexample`.) -/
theorem C3_extraction :
    (∀ (src : String) (rest : List (Option String)),
       findImgSrc (Markup.ok (some src :: rest)) = Except.ok (some src)) ∧
    (findImgSrc (Markup.ok []) = Except.ok none) ∧
    (∀ (m : Markup) (msg : String),
       findImgSrc m = Except.error msg → findImgSrcSafe m = none) ∧
    (∀ entries : List Entry,
       fetchNewsRunTrial (Except.ok entries) =
         entries.map fun e =>
           { title := e.title, link := e.link,
             image_url := findImgSrcSafe e.description }) := by
  refine ⟨fun _ _ => rfl, rfl, ?_, fun _ => rfl⟩
  intro m msg h
  unfold findImgSrcSafe
  rw [h]

/-- Witness for `C3_extraction`: on markup whose parsing raises, the async
extraction degrades to no thumbnail. -/
theorem C3_extraction_witness : findImgSrcSafe Markup.parseFail = none :=
  C3_extraction.2.2.1 Markup.parseFail "parse error" rfl

/-- Claim C7, counterexample: a feed that fetches and parses successfully but
contains zero entries makes both fetchers emit an empty item list, so the
fetcher can deliver an empty result to the display step. -/
theorem C7_counterexample :
    fetchNewsRunSync (Except.ok []) = [] ∧ fetchNewsRunTrial (Except.ok []) = [] :=
  ⟨rfl, rfl⟩

/-- Claim C7 as amended: the fetch result is empty exactly when the feed
fetch succeeds with zero entries; in every other case it is non-empty
(either one item per entry or the single synthetic error item). -/
theorem C7_nonempty (feed : Except String (List Entry)) :
    (fetchNewsRunSync feed = [] ↔ feed = Except.ok []) ∧
    (fetchNewsRunTrial feed = [] ↔ feed = Except.ok []) := by
  cases feed with
  | error e => simp [fetchNewsRunSync, fetchNewsRunTrial]
  | ok entries =>
    constructor
    · simp only [fetchNewsRunSync]
      cases hp : processEntriesSync entries with
      | error msg =>
        constructor
        · intro h; simp at h
        · intro h
          have he : entries = [] := by simpa using h
          subst he
          simp [processEntriesSync] at hp
      | ok items =>
        have hlen := length_processEntriesSync entries items hp
        constructor
        · intro h
          subst h
          have h0 : entries.length = 0 := by simpa using hlen.symm
          rw [List.length_eq_zero.mp h0]
        · intro h
          have he : entries = [] := by simpa using h
          subst he
          simp [processEntriesSync] at hp
          simp [hp]
    · simp [fetchNewsRunTrial]

/-- Witness for `C7_nonempty`: with one healthy entry the sync fetch result
is non-empty. -/
theorem C7_nonempty_witness :
    fetchNewsRunSync (Except.ok [entryGoodImg]) ≠ [] := by
  intro h
  have h2 := (C7_nonempty (Except.ok [entryGoodImg])).1.mp h
  simp at h2

/-- Claim C9: `NewsApp.open_link` performs no external action on an empty
link and invokes the browser opener exactly once, with the literal link,
otherwise (both variants share the code line for line). -/
theorem C9_open_link :
    (open_link "" = []) ∧ (∀ link : String, link ≠ "" → open_link link = [link]) := by
  refine ⟨rfl, ?_⟩
  intro link h
  unfold open_link
  rw [if_neg h]

/-- Witness for `C9_open_link`: a concrete non-empty link is opened exactly
once. -/
theorem C9_open_link_witness : open_link "https://a.example" = ["https://a.example"] :=
  C9_open_link.2 "https://a.example" (by decide)

/-- One entry row of the list: the title label text, the link stashed on the
widget (`widget.link = news_item["link"]`), and whether
`widget.setStyleSheet("background-color: lightblue;")` is in effect
(highlight is binary: lightblue vs default). -/
structure RowWidget where
  title : String
  link : String
  highlighted : Bool
deriving DecidableEq

/-- The UI state owned by `NewsApp` that the claims concern:
`self.news_widgets` and `self.selected_index`. -/
structure AppState where
  news_widgets : List RowWidget
  selected_index : Nat
deriving DecidableEq

/-- The row produced by `NewsApp.create_news_widget` for one item: title and
link copied from the item, default (non-highlighted) background. -/
def create_news_widget_row (item : NewsItem) : RowWidget :=
  { title := item.title, link := item.link, highlighted := false }

/-- The loop body of `NewsApp.update_highlight`:
`for i, widget in enumerate(self.news_widgets)` starting at index `i`,
the widget gets the lightblue background exactly when its index equals
`selected_index`, all others are reset to the default. -/
def highlightFrom (sel : Nat) : Nat → List RowWidget → List RowWidget
  | _, [] => []
  | i, w :: rest =>
    { w with highlighted := decide (i = sel) } :: highlightFrom sel (i + 1) rest

/-- `NewsApp.update_highlight` (PostNews.py lines 150-156, PostNewsTrial.py
lines 181-187). -/
def update_highlight (s : AppState) : AppState :=
  { s with news_widgets := highlightFrom s.selected_index 0 s.news_widgets }

/-- `NewsApp.display_news` (PostNews.py lines 82-97, PostNewsTrial.py lines
112-127): clear the old rows, build one row per item in order, then — only
when the new row list is non-empty — reset `selected_index` to 0 and apply
the highlight. -/
def display_news (s : AppState) (items : List NewsItem) : AppState :=
  let widgets := items.map create_news_widget_row
  if widgets.isEmpty then { news_widgets := widgets, selected_index := s.selected_index }
  else update_highlight { news_widgets := widgets, selected_index := 0 }

/-- The `Qt.Key_Down` branch of `NewsApp.keyPressEvent` (PostNews.py lines
160-164, PostNewsTrial.py lines 191-195).  The Python guard
`selected_index < len(news_widgets) - 1` is over unbounded signed integers,
hence the `Int` comparison. -/
def keyDown (s : AppState) : AppState :=
  if (s.selected_index : Int) < (s.news_widgets.length : Int) - 1 then
    update_highlight { s with selected_index := s.selected_index + 1 }
  else s

/-- The `Qt.Key_Up` branch of `NewsApp.keyPressEvent` (PostNews.py lines
165-169, PostNewsTrial.py lines 196-200). -/
def keyUp (s : AppState) : AppState :=
  if 0 < s.selected_index then
    update_highlight { s with selected_index := s.selected_index - 1 }
  else s

theorem length_highlightFrom (l : List RowWidget) (sel i : Nat) :
    (highlightFrom sel i l).length = l.length := by
  induction l generalizing i with
  | nil => rfl
  | cons w rest ih => simp [highlightFrom, ih]

theorem map_titleLink_highlightFrom (l : List RowWidget) (sel i : Nat) :
    (highlightFrom sel i l).map (fun w => (w.title, w.link)) =
      l.map (fun w => (w.title, w.link)) := by
  induction l generalizing i with
  | nil => rfl
  | cons w rest ih => simp [highlightFrom, ih]

theorem highlightFrom_false_of_lt (l : List RowWidget) (sel : Nat) :
    ∀ i, sel < i → ∀ w ∈ highlightFrom sel i l, w.highlighted = false := by
  induction l with
  | nil => intro i _ w hw; simp [highlightFrom] at hw
  | cons x rest ih =>
    intro i hi w hw
    simp only [highlightFrom, List.mem_cons] at hw
    cases hw with
    | inl h =>
      subst h
      simp [decide_eq_false (by omega : ¬ i = sel)]
    | inr h => exact ih (i + 1) (by omega) w h

/-- Claim C1: displaying a fetched list with K entries produces exactly K
rows, in order, each row taking title and link from the corresponding entry;
whenever K > 0 the selection index is reset to 0 and exactly the first row
gets the highlight. -/
theorem C1_display (s : AppState) (items : List NewsItem) :
    ((display_news s items).news_widgets.length = items.length) ∧
    ((display_news s items).news_widgets.map (fun w => (w.title, w.link)) =
       items.map fun it => (it.title, it.link)) ∧
    (0 < items.length →
       (display_news s items).selected_index = 0 ∧
       ((display_news s items).news_widgets.head?.map RowWidget.highlighted =
          some true) ∧
       (∀ w ∈ (display_news s items).news_widgets.tail, w.highlighted = false)) := by
  cases items with
  | nil => simp [display_news]
  | cons it rest =>
    have hne : ((it :: rest).map create_news_widget_row).isEmpty = false := by
      simp
    refine ⟨?_, ?_, ?_⟩
    · simp [display_news, hne, update_highlight, length_highlightFrom]
    · simp only [display_news, hne, Bool.false_eq_true, if_false, update_highlight]
      rw [map_titleLink_highlightFrom]
      simp [create_news_widget_row]
    · intro _
      refine ⟨?_, ?_, ?_⟩
      · simp [display_news, hne, update_highlight]
      · simp [display_news, hne, update_highlight, List.map_cons, highlightFrom]
      · simp only [display_news, hne, Bool.false_eq_true, if_false, update_highlight,
          List.map_cons, highlightFrom, List.tail_cons]
        exact highlightFrom_false_of_lt (rest.map create_news_widget_row) 0 1 (by omega)

/-- Witness for `C1_display`: a concrete one-item display has selection 0
and its first (only) row highlighted. -/
theorem C1_display_witness :
    (display_news { news_widgets := [], selected_index := 5 }
        [{ title := "t", link := "l", image_url := none }]).selected_index = 0 :=
  ((C1_display { news_widgets := [], selected_index := 5 }
      [{ title := "t", link := "l", image_url := none }]).2.2 (by decide)).1

theorem update_highlight_selected (s : AppState) :
    (update_highlight s).selected_index = s.selected_index := rfl

theorem update_highlight_length (s : AppState) :
    (update_highlight s).news_widgets.length = s.news_widgets.length :=
  length_highlightFrom s.news_widgets s.selected_index 0

/-- `keyDown` either advances the selection by one (when the Python guard
`selected_index < len(news_widgets) - 1` holds) or leaves the state alone. -/
theorem keyDown_of_lt (s : AppState)
    (h : s.selected_index + 1 < s.news_widgets.length) :
    (keyDown s).selected_index = s.selected_index + 1 ∧
      (keyDown s).news_widgets.length = s.news_widgets.length := by
  unfold keyDown
  rw [if_pos (by omega)]
  exact ⟨rfl, length_highlightFrom _ _ _⟩

theorem keyDown_of_ge (s : AppState)
    (h : ¬ s.selected_index + 1 < s.news_widgets.length) :
    keyDown s = s := by
  unfold keyDown
  rw [if_neg (by omega)]

theorem keyUp_of_zero (s : AppState) (h : s.selected_index = 0) : keyUp s = s := by
  unfold keyUp
  rw [if_neg (by omega)]

theorem keyDown_iterate (n : Nat) (s : AppState)
    (h : s.selected_index + n < s.news_widgets.length) :
    (keyDown^[n] s).selected_index = s.selected_index + n ∧
      (keyDown^[n] s).news_widgets.length = s.news_widgets.length := by
  induction n generalizing s with
  | zero => simp
  | succ m ih =>
    rw [Function.iterate_succ_apply]
    have hstep := keyDown_of_lt s (by omega)
    have := ih (keyDown s) (by omega)
    omega

/-- Claim C5: from selection 0 on a K-row list, K-1 `down` presses land on
row K-1; a further `down` press is a no-op, and an `up` press at the top is a
no-op — the selection clamps at both ends with no wraparound. -/
theorem C5_navigation (s : AppState) (h0 : s.selected_index = 0)
    (hk : 0 < s.news_widgets.length) :
    ((keyDown^[s.news_widgets.length - 1] s).selected_index =
       s.news_widgets.length - 1) ∧
    (keyDown (keyDown^[s.news_widgets.length - 1] s) =
       keyDown^[s.news_widgets.length - 1] s) ∧
    (keyUp s = s) := by
  have hiter := keyDown_iterate (s.news_widgets.length - 1) s (by omega)
  refine ⟨by omega, ?_, keyUp_of_zero s h0⟩
  exact keyDown_of_ge _ (by omega)

/-- Concrete three-row state for the `C5_navigation` witness. -/
def threeRowState : AppState :=
  { news_widgets :=
      [{ title := "a", link := "", highlighted := true },
       { title := "b", link := "", highlighted := false },
       { title := "c", link := "", highlighted := false }],
    selected_index := 0 }

/-- Witness for `C5_navigation` on a concrete three-row list. -/
theorem C5_navigation_witness :
    ((keyDown^[threeRowState.news_widgets.length - 1] threeRowState).selected_index =
       threeRowState.news_widgets.length - 1) ∧
    (keyDown (keyDown^[threeRowState.news_widgets.length - 1] threeRowState) =
       keyDown^[threeRowState.news_widgets.length - 1] threeRowState) ∧
    (keyUp threeRowState = threeRowState) :=
  C5_navigation threeRowState rfl (by decide)

/-- The user-visible and fetch events `NewsApp` reacts to: completion of a
`FetchNewsThread` (the `news_fetched` signal delivering an item list to
`display_news`) and the two arrow keys of `keyPressEvent`. -/
inductive UIEvent where
  | fetched (items : List NewsItem)
  | keyDown
  | keyUp
deriving DecidableEq

/-- One step of `NewsApp`, together with the list index that
`scroll_to_selected` reads (`self.news_widgets[self.selected_index]`) during
the step, when the key press moves the selection; `none` when
`scroll_to_selected` is not called. -/
def stepAccess (s : AppState) : UIEvent → AppState × Option Nat
  | UIEvent.fetched items => (display_news s items, none)
  | UIEvent.keyDown =>
    if (s.selected_index : Int) < (s.news_widgets.length : Int) - 1 then
      (keyDown s, some (s.selected_index + 1))
    else (s, none)
  | UIEvent.keyUp =>
    if 0 < s.selected_index then
      (keyUp s, some (s.selected_index - 1))
    else (s, none)

/-- Folding a sequence of events from a start state, keeping only the state. -/
def runEvents (s : AppState) (evs : List UIEvent) : AppState :=
  evs.foldl (fun t e => (stepAccess t e).1) s

/-- The `NewsApp` start state: `self.news_widgets = []`,
`self.selected_index = 0`. -/
def initialAppState : AppState := { news_widgets := [], selected_index := 0 }

/-- Event sequence reaching the state claim C10 singles out: a fetch of four
entries, three `down` presses (selection 3), then a fetch that delivers an
empty entry list — which skips the selection reset. -/
def c10events : List UIEvent :=
  [UIEvent.fetched
     [{ title := "a", link := "", image_url := none },
      { title := "b", link := "", image_url := none },
      { title := "c", link := "", image_url := none },
      { title := "d", link := "", image_url := none }],
   UIEvent.keyDown, UIEvent.keyDown, UIEvent.keyDown,
   UIEvent.fetched []]

/-- Claim C10 fails on the code: after `c10events` the row list is empty while
`selected_index` is still 3, and an `up` press then makes
`scroll_to_selected` read index 2 of the empty `news_widgets` list — an
out-of-bounds access (`IndexError` in Python). -/
theorem C10_out_of_bounds :
    ((runEvents initialAppState c10events).news_widgets.length = 0) ∧
    ((runEvents initialAppState c10events).selected_index = 3) ∧
    ((stepAccess (runEvents initialAppState c10events) UIEvent.keyUp).2 = some 2) ∧
    (¬ 2 < (runEvents initialAppState c10events).news_widgets.length) := by
  refine ⟨rfl, rfl, rfl, by decide⟩

/-- The outcome of `requests.get(url)`: `ok status content` for an HTTP
response, `err` when the call raises (connection error or any other
transport failure). -/
inductive HttpReply where
  | ok (status : Nat) (content : List Nat)
  | err (msg : String)
deriving DecidableEq

/-- `LoadImageThread.run` of `PostNewsTrial.py` (lines 54-69).  `decode` is
`QPixmap.loadFromData`: `some` bitmap for decodable bytes, `none` for bytes it
cannot decode (the pixmap then stays null).  `http` gives the outcome of
`requests.get`.  The result is the `(pixmap, link)` pair emitted on the
`image_loaded` signal, with a `none` pixmap standing for a null `QPixmap`;
every branch emits, none raises. -/
def loadImageRun (decode : List Nat → Option Img) (http : String → HttpReply)
    (image_url : Option String) (link : String) : Option Img × String :=
  match image_url with
  | none => (none, link)
  | some url =>
    match http url with
    | HttpReply.err _ => (none, link)
    | HttpReply.ok status content =>
      if status = 200 then (decode content, link) else (none, link)

/-- What `NewsApp.set_image` leaves on the row's image label: either the
literal text `"No image available"`, or the pixmap scaled with bounds
100 x 100 and the Qt `KeepAspectRatio` flag (recorded as the final `true`). -/
inductive Rendered where
  | noImage
  | scaledPix (i : Img) (boundW boundH : Nat) (keepAspect : Bool)
deriving DecidableEq

/-- `NewsApp.set_image` of `PostNewsTrial.py` (lines 168-174): a null pixmap
renders the "No image available" text; a non-null pixmap is scaled to the
100 x 100 bound preserving aspect ratio and set on the label. -/
def set_image (pix : Option Img) : Rendered :=
  match pix with
  | none => Rendered.noImage
  | some i => Rendered.scaledPix i 100 100 true

/-- Claim C4: in the async variant, a missing URL, a non-success HTTP status,
a transport error and a decode failure all make `LoadImageThread.run` emit
the same null-pixmap outcome (no branch raises), which `set_image` renders as
the "No image available" text; a successful load emits the decoded bitmap,
which `set_image` scales to the 100 x 100 bound preserving aspect ratio. -/
theorem C4_image_load :
    (∀ (decode : List Nat → Option Img) (http : String → HttpReply) (link : String),
       loadImageRun decode http none link = (none, link)) ∧
    (∀ (decode : List Nat → Option Img) (http : String → HttpReply)
       (url link : String) (status : Nat) (content : List Nat),
       http url = HttpReply.ok status content → status ≠ 200 →
         loadImageRun decode http (some url) link = (none, link)) ∧
    (∀ (decode : List Nat → Option Img) (http : String → HttpReply)
       (url link msg : String),
       http url = HttpReply.err msg →
         loadImageRun decode http (some url) link = (none, link)) ∧
    (∀ (decode : List Nat → Option Img) (http : String → HttpReply)
       (url link : String) (content : List Nat),
       http url = HttpReply.ok 200 content → decode content = none →
         loadImageRun decode http (some url) link = (none, link)) ∧
    (set_image none = Rendered.noImage) ∧
    (∀ (decode : List Nat → Option Img) (http : String → HttpReply)
       (url link : String) (content : List Nat) (i : Img),
       http url = HttpReply.ok 200 content → decode content = some i →
         loadImageRun decode http (some url) link = (some i, link) ∧
           set_image (some i) = Rendered.scaledPix i 100 100 true) := by
  refine ⟨fun _ _ _ => rfl, ?_, ?_, ?_, rfl, ?_⟩
  · intro decode http url link status content hh hs
    simp only [loadImageRun]
    rw [hh]
    simp [hs]
  · intro decode http url link msg hh
    simp only [loadImageRun]
    rw [hh]
  · intro decode http url link content hh hd
    simp only [loadImageRun]
    rw [hh]
    simp [hd]
  · intro decode http url link content i hh hd
    refine ⟨?_, rfl⟩
    simp only [loadImageRun]
    rw [hh]
    simp [hd]

/-- Concrete HTTP environment for the `C4_image_load` witness: one URL with a
decodable 200 response, one with an undecodable 200 response, one returning
404, everything else raising a connection error. -/
def c4http : String → HttpReply := fun u =>
  if u = "good" then HttpReply.ok 200 [1]
  else if u = "undecodable" then HttpReply.ok 200 [2]
  else if u = "missing" then HttpReply.ok 404 []
  else HttpReply.err "connection refused"

/-- Concrete decoder for the `C4_image_load` witness: only the byte string
`[1]` decodes. -/
def c4decode : List Nat → Option Img := fun b =>
  if b = [1] then some { data := 7 } else none

/-- Witness for `C4_image_load`: all four failure shapes at concrete inputs
render "No image available", and the successful load at a concrete input
yields the bitmap scaled to the 100 x 100 bound with aspect ratio kept. -/
theorem C4_image_load_witness :
    (set_image (loadImageRun c4decode c4http none "L").1 = Rendered.noImage) ∧
    (set_image (loadImageRun c4decode c4http (some "missing") "L").1 = Rendered.noImage) ∧
    (set_image (loadImageRun c4decode c4http (some "down") "L").1 = Rendered.noImage) ∧
    (set_image (loadImageRun c4decode c4http (some "undecodable") "L").1 = Rendered.noImage) ∧
    (loadImageRun c4decode c4http (some "good") "L" = (some { data := 7 }, "L") ∧
       set_image (some { data := 7 }) = Rendered.scaledPix { data := 7 } 100 100 true) := by
  refine ⟨?_, ?_, ?_, ?_, ?_⟩
  · rw [C4_image_load.1 c4decode c4http "L"]
    rfl
  · rw [C4_image_load.2.1 c4decode c4http "missing" "L" 404 [] (by decide) (by decide)]
    rfl
  · rw [C4_image_load.2.2.1 c4decode c4http "down" "L" "connection refused" (by decide)]
    rfl
  · rw [C4_image_load.2.2.2.1 c4decode c4http "undecodable" "L" [2] (by decide) (by decide)]
    rfl
  · exact C4_image_load.2.2.2.2.2 c4decode c4http "good" "L" [1] { data := 7 }
      (by decide) (by decide)

/-- What one row's image label shows in the async variant: the
`"Loading image..."` placeholder set in `create_news_widget`, or the result
of a `set_image` delivery. -/
inductive LabelContent where
  | loadingText
  | done (r : Rendered)
deriving DecidableEq

/-- One queued `image_loaded` emission: the identity of the `QLabel` object
captured by the `connect` lambda at dispatch time, the emitted pixmap, and
the link used as correlation key. -/
structure Delivery where
  labelId : Nat
  pix : Option Img
  link : String
deriving DecidableEq

/-- The object-level state of the async variant that claim C6 concerns.
`labels` is the heap of every image label ever created (keyed by object
identity), `rows` lists the label ids of the currently displayed batch in
order, `pending` the queued image deliveries, and `nextId` the next fresh
object identity. -/
structure TrialUI where
  labels : List (Nat × LabelContent)
  rows : List Nat
  pending : List Delivery
  nextId : Nat
deriving DecidableEq

/-- Association lookup on the label heap by object identity. -/
def lookupContent : List (Nat × LabelContent) → Nat → Option LabelContent
  | [], _ => none
  | p :: rest, i => if p.1 = i then some p.2 else lookupContent rest i

/-- Overwrite the content of the label with identity `i`. -/
def setLabel (labels : List (Nat × LabelContent)) (i : Nat) (c : LabelContent) :
    List (Nat × LabelContent) :=
  labels.map fun p => if p.1 = i then (p.1, c) else p

/-- `NewsApp.display_news` plus `create_news_widget` of `PostNewsTrial.py`
(lines 112-166) at the object level: the old rows are discarded, one fresh
label per item is created showing the loading placeholder, and one
`LoadImageThread` per item is dispatched whose eventual emission is bound to
that fresh label object.  `pixOf` gives the pixmap each worker will emit
(the first component of `loadImageRun`). -/
def display_news_async (s : TrialUI) (items : List NewsItem)
    (pixOf : NewsItem → Option Img) : TrialUI :=
  let ids := (List.range items.length).map fun j => s.nextId + j
  { labels := s.labels ++ ids.map fun i => (i, LabelContent.loadingText),
    rows := ids,
    pending := s.pending ++ (items.zip ids).map fun p =>
      { labelId := p.2, pix := pixOf p.1, link := p.1.link },
    nextId := s.nextId + items.length }

/-- Delivery of one queued `image_loaded` emission: `NewsApp.set_image`
(PostNewsTrial.py lines 168-174) runs unconditionally on the label object
captured at dispatch time — the code performs no correlation-key or
batch-generation check before mutating it. -/
def deliverImage (s : TrialUI) (d : Delivery) : TrialUI :=
  { s with labels := setLabel s.labels d.labelId (LabelContent.done (set_image d.pix)) }

theorem lookupContent_setLabel_ne (l : List (Nat × LabelContent)) (i j : Nat)
    (c : LabelContent) (h : j ≠ i) :
    lookupContent (setLabel l i c) j = lookupContent l j := by
  induction l with
  | nil => rfl
  | cons p rest ih =>
    by_cases hp : p.1 = i
    · simp only [setLabel, List.map_cons, if_pos hp] at *
      rw [lookupContent, lookupContent, if_neg (by omega), if_neg (by omega)]
      exact ih
    · simp only [setLabel, List.map_cons, if_neg hp] at *
      rw [lookupContent, lookupContent]
      by_cases hj : p.1 = j
      · rw [if_pos hj, if_pos hj]
      · rw [if_neg hj, if_neg hj]
        exact ih

/-- Claim C6 as amended: fresh-identity bookkeeping is preserved by a refresh,
and a thumbnail delivery dispatched for an earlier batch targets a label that
is not a row of any later batch, so delivering it never mutates a row of the
new batch — although the delivery is not dropped (see the counterexample: it
mutates the stale, discarded label). -/
theorem C6_no_cross_batch (s : TrialUI) (items : List NewsItem)
    (pixOf : NewsItem → Option Img) (d : Delivery)
    (hinv : ∀ d2 ∈ s.pending, d2.labelId < s.nextId) :
    (∀ d2 ∈ (display_news_async s items pixOf).pending,
       d2.labelId < (display_news_async s items pixOf).nextId) ∧
    (d ∈ s.pending →
       d.labelId ∉ (display_news_async s items pixOf).rows ∧
       ∀ i ∈ (display_news_async s items pixOf).rows,
         lookupContent (deliverImage (display_news_async s items pixOf) d).labels i =
           lookupContent (display_news_async s items pixOf).labels i) := by
  constructor
  · intro d2 hd2
    simp only [display_news_async, List.mem_append] at hd2 ⊢
    cases hd2 with
    | inl h => have := hinv d2 h; omega
    | inr h =>
      rcases List.mem_map.mp h with ⟨p, hp, hpd⟩
      have hsnd := (List.of_mem_zip hp).2
      rcases List.mem_map.mp hsnd with ⟨j, hj, hji⟩
      rw [← hpd]
      simp only []
      rw [← hji]
      have := List.mem_range.mp hj
      omega
  · intro hd
    have hdlt : d.labelId < s.nextId := hinv d hd
    have hrow : ∀ i ∈ (display_news_async s items pixOf).rows, s.nextId ≤ i := by
      intro i hi
      simp only [display_news_async] at hi
      rcases List.mem_map.mp hi with ⟨j, hj, hji⟩
      omega
    constructor
    · intro hmem
      have := hrow d.labelId hmem
      omega
    · intro i hi
      have hne : i ≠ d.labelId := by
        have := hrow i hi
        omega
      simp only [deliverImage]
      exact lookupContent_setLabel_ne _ _ _ _ hne

/-- Start state of the async UI: no labels, no rows, nothing pending. -/
def trialStart : TrialUI := { labels := [], rows := [], pending := [], nextId := 0 }

/-- First fetched batch: one item with a thumbnail URL. -/
def batchOneItem : NewsItem := { title := "A", link := "la", image_url := some "u" }

/-- Second fetched batch: a different single item. -/
def batchTwoItem : NewsItem := { title := "B", link := "lb", image_url := some "v" }

/-- Worker outcomes for the concrete C6 trace: every image fetch fails, so
every worker emits a null pixmap. -/
def nullPixOf : NewsItem → Option Img := fun _ => none

/-- State after the first batch is displayed: row label 0, one in-flight
thumbnail worker bound to label 0. -/
def afterBatchOne : TrialUI := display_news_async trialStart [batchOneItem] nullPixOf

/-- State after a second fetch replaces the rows: row label 1, while the
batch-one worker is still in flight. -/
def afterBatchTwo : TrialUI := display_news_async afterBatchOne [batchTwoItem] nullPixOf

/-- The batch-one emission: bound to label 0, null pixmap, correlation key
`"la"`. -/
def staleDelivery : Delivery := { labelId := 0, pix := none, link := "la" }

/-- Claim C6, counterexample to the "delivery is dropped" part: the batch-one
emission is still pending, its target label is no longer a displayed row, yet
delivering it is not a no-op — `set_image` runs and mutates the stale label
(there is no correlation-key check in the code).  The new batch's label is
untouched. -/
theorem C6_counterexample :
    staleDelivery ∈ afterBatchOne.pending ∧
    staleDelivery.labelId ∉ afterBatchTwo.rows ∧
    deliverImage afterBatchTwo staleDelivery ≠ afterBatchTwo ∧
    lookupContent (deliverImage afterBatchTwo staleDelivery).labels 0 =
      some (LabelContent.done Rendered.noImage) ∧
    lookupContent (deliverImage afterBatchTwo staleDelivery).labels 1 =
      some LabelContent.loadingText := by
  refine ⟨by decide, by decide, by decide, by decide, by decide⟩

/-- Witness for `C6_no_cross_batch` on the concrete trace: delivering the
stale batch-one emission after the second refresh leaves the new row's label
(identity 1) unchanged. -/
theorem C6_no_cross_batch_witness :
    lookupContent (deliverImage (display_news_async afterBatchOne [batchTwoItem] nullPixOf)
        staleDelivery).labels 1 =
      lookupContent (display_news_async afterBatchOne [batchTwoItem] nullPixOf).labels 1 :=
  (((C6_no_cross_batch afterBatchOne [batchTwoItem] nullPixOf staleDelivery
      (by decide)).2 (by decide)).2) 1 (by decide)

/-- A network operation the application performs. -/
inductive NetOp where
  | feedFetch (url : String)
  | imageGet (url : String)
deriving DecidableEq

/-- The thread an operation runs on: the Qt interaction (UI) thread, or a
worker `QThread` (numbered in spawn order). -/
inductive Thr where
  | ui
  | worker (id : Nat)
deriving DecidableEq

/-- The hardcoded feed URL. -/
def feedUrl : String := "https://www.ilpost.it/feed"

/-- The image fetches of the sync variant, with their thread: in
`PostNews.py`, `create_news_widget` calls `requests.get` directly (lines
106-117), and it is called from `display_news`, the slot connected to the
worker's `news_fetched` signal — a cross-thread Qt signal whose slot runs on
the receiver's (main/UI) thread.  One fetch per item with a thumbnail URL. -/
def syncImageEvents : List NewsItem → List (Thr × NetOp)
  | [] => []
  | it :: rest =>
    match it.image_url with
    | some u => (Thr.ui, NetOp.imageGet u) :: syncImageEvents rest
    | none => syncImageEvents rest

/-- All network operations of one sync-variant execution displaying `items`,
in order with their thread: the feed fetch inside `FetchNewsThread.run` (on
that worker thread), then the per-item image fetches on the UI thread. -/
def syncNetworkEvents (items : List NewsItem) : List (Thr × NetOp) :=
  (Thr.worker 0, NetOp.feedFetch feedUrl) :: syncImageEvents items

/-- The image fetches of the async variant, with their thread: in
`PostNewsTrial.py`, `create_news_widget` spawns one `LoadImageThread` per
item (lines 160-164) and `requests.get` runs inside that worker's `run`
(line 57); no network call happens for an item without a thumbnail URL. -/
def trialImageEvents : Nat → List NewsItem → List (Thr × NetOp)
  | _, [] => []
  | i, it :: rest =>
    match it.image_url with
    | some u => (Thr.worker (i + 1), NetOp.imageGet u) :: trialImageEvents (i + 1) rest
    | none => trialImageEvents (i + 1) rest

/-- All network operations of one async-variant execution displaying `items`,
in order with their thread. -/
def trialNetworkEvents (items : List NewsItem) : List (Thr × NetOp) :=
  (Thr.worker 0, NetOp.feedFetch feedUrl) :: trialImageEvents 0 items

theorem trialImageEvents_shape (items : List NewsItem) :
    ∀ (i : Nat) (ev : Thr × NetOp), ev ∈ trialImageEvents i items →
      ∃ j u, ev = (Thr.worker (j + 1), NetOp.imageGet u) := by
  induction items with
  | nil => intro i ev h; simp [trialImageEvents] at h
  | cons it rest ih =>
    intro i ev h
    simp only [trialImageEvents] at h
    cases hu : it.image_url with
    | some u =>
      rw [hu] at h
      rcases List.mem_cons.mp h with h1 | h2
      · exact ⟨i, u, h1⟩
      · exact ih (i + 1) ev h2
    | none =>
      rw [hu] at h
      exact ih (i + 1) ev h

theorem syncImageEvents_shape (items : List NewsItem) :
    ∀ ev ∈ syncImageEvents items, ∃ u, ev = (Thr.ui, NetOp.imageGet u) := by
  induction items with
  | nil => intro ev h; simp [syncImageEvents] at h
  | cons it rest ih =>
    intro ev h
    simp only [syncImageEvents] at h
    cases hu : it.image_url with
    | some u =>
      rw [hu] at h
      rcases List.mem_cons.mp h with h1 | h2
      · exact ⟨u, h1⟩
      · exact ih ev h2
    | none =>
      rw [hu] at h
      exact ih ev h

/-- Claim C8, counterexample: in the sync variant, displaying one item that
has a thumbnail URL performs an image fetch on the interaction (UI) thread —
`requests.get` runs inside `create_news_widget`, which executes in the
`display_news` slot on the main thread. -/
theorem C8_counterexample :
    (Thr.ui, NetOp.imageGet "u") ∈
      syncNetworkEvents [{ title := "t", link := "l", image_url := some "u" }] := by
  decide

/-- Claim C8 as amended: the feed fetch runs on a worker thread in both
variants; in the async variant every network operation runs on a worker
thread (the UI thread performs none), while in the sync variant every image
fetch runs on the interaction thread. -/
theorem C8_threads (items : List NewsItem) :
    (∀ ev ∈ trialNetworkEvents items, ev.1 ≠ Thr.ui) ∧
    (∀ ev ∈ syncNetworkEvents items,
       ev = (Thr.worker 0, NetOp.feedFetch feedUrl) ∨
         ∃ u, ev = (Thr.ui, NetOp.imageGet u)) := by
  constructor
  · intro ev h
    rcases List.mem_cons.mp h with h1 | h2
    · rw [h1]; intro hc; cases hc
    · rcases trialImageEvents_shape items 0 ev h2 with ⟨j, u, he⟩
      rw [he]; intro hc; cases hc
  · intro ev h
    rcases List.mem_cons.mp h with h1 | h2
    · exact Or.inl h1
    · exact Or.inr (syncImageEvents_shape items ev h2)

/-- Witness for `C8_threads`: the one async-variant image fetch of a concrete
one-item display runs on worker thread 1, not on the UI thread. -/
theorem C8_threads_witness :
    ((Thr.worker 1, NetOp.imageGet "u") : Thr × NetOp).1 ≠ Thr.ui :=
  (C8_threads [{ title := "t", link := "l", image_url := some "u" }]).1
    (Thr.worker 1, NetOp.imageGet "u") (by decide)
